import Mathlib

/-!
Verification of the tab/window-to-node association engine of the sidewise
repository (src/js/ui/classes/FancyTree.dragDrop.js, association section).
Each JavaScript function relevant to the claims is shallowly embedded as an
executable Lean definition; theorems about those definitions settle the
claims.  JS numbers appearing here are non-negative integers (tab ids,
window ids, tab indexes, counts), modeled as `Nat`; association scores,
which are exact multiples of 0.00001, are modeled as integers scaled by
100000 (the sums of 1.0 and 0.00001 used by the source are represented
exactly; IEEE-754 rounding of repeated 0.00001 additions is not modeled,
and every concrete input used below keeps scores at whole numbers, where
the double arithmetic of the source is exact).
-/

set_option autoImplicit false

namespace Sidewise

/-! ### A small matcher for the regular expressions of the source

The source tests a handful of fixed regular expressions built from literal
characters, `.` (any character), `.*`, `.+`, `\d+` and top-level
alternation.  Alternation is expanded into unions of purely sequential
patterns, so a pattern is a `List RTok`; `matchSeq pats s` decides whether
the pattern matches a prefix of `s` (all source regexes are anchored with
`^` and unanchored at the end, and `.test`/`.match` only ask for match
existence).  `.` is modeled as matching any character: JS `.` refuses only
line terminators, which do not occur in the URL and referrer strings these
patterns are applied to. -/

inductive RTok where
  | lit : Char → RTok
  | anyc : RTok
  | star : RTok
  | plus : RTok
  | digits : RTok
deriving DecidableEq

/-- Literal token list for a string of characters. -/
def lits (s : String) : List RTok := s.data.map RTok.lit

def matchSeqFuel : Nat → List RTok → List Char → Bool
  | 0, _, _ => false
  | fuel + 1, ps, s =>
    match ps, s with
    | [], _ => true
    | .lit _ :: _, [] => false
    | .lit c :: ps', x :: xs => x == c && matchSeqFuel fuel ps' xs
    | .anyc :: _, [] => false
    | .anyc :: ps', _ :: xs => matchSeqFuel fuel ps' xs
    | .star :: ps', s' =>
      matchSeqFuel fuel ps' s' ||
        (match s' with
         | [] => false
         | _ :: xs => matchSeqFuel fuel (.star :: ps') xs)
    | .plus :: _, [] => false
    | .plus :: ps', _ :: xs => matchSeqFuel fuel ps' xs || matchSeqFuel fuel (.plus :: ps') xs
    | .digits :: _, [] => false
    | .digits :: ps', x :: xs =>
      x.isDigit && (matchSeqFuel fuel ps' xs || matchSeqFuel fuel (.digits :: ps') xs)

/-- Prefix matching of a sequential pattern.  Every recursive step of
`matchSeqFuel` strictly decreases `ps.length + s.length`, so a fuel of
`ps.length + s.length + 1` can never run out; the fuel only makes the
recursion structural. -/
def matchSeq (ps : List RTok) (s : List Char) : Bool :=
  matchSeqFuel (ps.length + s.length + 1) ps s

/-! ### URL classification helpers of the source -/

/-- Embeds `isScriptableUrl` (FancyTree.dragDrop.js lines 714-721): a url is
not scriptable when it is empty, matches `^(about|file|view-source|chrome.*):`,
or matches `^https?://chrome.google.com/webstore` (the unescaped dots of the
webstore pattern are any-character tokens, exactly as in the source). -/
def isScriptableUrl (url : String) : Bool :=
  !(url == ""
    || matchSeq (lits "about:") url.data
    || matchSeq (lits "file:") url.data
    || matchSeq (lits "view-source:") url.data
    || matchSeq (lits "chrome" ++ [.star, .lit ':']) url.data
    || matchSeq (lits "http://chrome" ++ [.anyc] ++ lits "google" ++ [.anyc] ++ lits "com/webstore") url.data
    || matchSeq (lits "https://chrome" ++ [.anyc] ++ lits "google" ++ [.anyc] ++ lits "com/webstore") url.data)

/-- Embeds `isGoogleSearchUrl`: `url.match(/^https?:\/\/.*google.*\/search\?q=/)`. -/
def isGoogleSearchUrl (url : String) : Bool :=
  matchSeq (lits "http://" ++ [.star] ++ lits "google" ++ [.star] ++ lits "/search?q=") url.data
    || matchSeq (lits "https://" ++ [.star] ++ lits "google" ++ [.star] ++ lits "/search?q=") url.data

/-- Embeds the test of `CHROME_BLANKABLE_REFERRER_REGEXP` (lines 897-898):
`^http.+google.+\/(search\?.*sugexp=chrome,mod=\d+\&sourceid=chrome|url\?.*source=web)`,
with the trailing alternation expanded into two sequential patterns. -/
def chromeBlankableReferrerTest (s : String) : Bool :=
  matchSeq (lits "http" ++ [.plus] ++ lits "google" ++ [.plus] ++ lits "/search?" ++ [.star]
      ++ lits "sugexp=chrome,mod=" ++ [.digits] ++ lits "&sourceid=chrome") s.data
    || matchSeq (lits "http" ++ [.plus] ++ lits "google" ++ [.plus] ++ lits "/url?" ++ [.star]
      ++ lits "source=web") s.data

/-- One left-to-right pass of `url.replace(/sei=[a-zA-Z0-9]+/g, '')`: at each
position, a match `sei=` followed by a maximal non-empty alphanumeric run is
removed and scanning resumes after it; otherwise scanning advances one
character.  Fuel is the length of the input; every step consumes at least one
character. -/
def stripSeiFuel : Nat → List Char → List Char
  | 0, l => l
  | _ + 1, [] => []
  | fuel + 1, 's' :: rest =>
    match rest with
    | 'e' :: 'i' :: '=' :: d :: r2 =>
      if d.isAlphanum then stripSeiFuel fuel (r2.dropWhile Char.isAlphanum)
      else 's' :: stripSeiFuel fuel rest
    | _ => 's' :: stripSeiFuel fuel rest
  | fuel + 1, c :: rest => c :: stripSeiFuel fuel rest

/-- `url.replace(/\#.+$/, '')`: delete everything from the first `#` that has
at least one character after it; a lone trailing `#` stays. -/
def stripHashPlus : List Char → List Char
  | [] => []
  | '#' :: _ :: _ => []
  | '#' :: [] => ['#']
  | x :: rest => x :: stripHashPlus rest

/-- Embeds `getGoogleTestUrl`:
`url.replace(/sei=[a-zA-Z0-9]+/g, '').replace(/\#.+$/, '')`. -/
def getGoogleTestUrl (url : String) : String :=
  String.mk (stripHashPlus (stripSeiFuel url.data.length url.data))

/-! ### Data model

`LTab` is a live Chrome tab as delivered by `chrome.tabs.query`.  `TNode` is
a persisted tree node; the `topParent*` fields flatten the information that
`node.topParent()` would yield (the disambiguation and association passes
never change a page node's ancestry, only its recorded ids, so carrying the
top parent's kind and flags on the node is sound for the functions embedded
here).  A hibernated `PageNode`'s `index` is `null` in the source, hence
`Option Nat`. -/

structure LTab where
  id : Nat
  windowId : Nat
  url : String
  index : Nat
  pinned : Bool
  incognito : Bool
  active : Bool
deriving DecidableEq

inductive NodeKind where
  | page
  | window
deriving DecidableEq

structure TNode where
  kind : NodeKind
  id : Nat
  url : String
  title : String
  referrer : String
  historylength : Nat
  pinned : Bool
  incognito : Bool
  hibernated : Bool
  restorable : Bool
  index : Option Nat
  topParentIsWindowNode : Bool
  topParentHibernated : Bool
  topParentRestorable : Bool
deriving DecidableEq

/-! ### `findPageNodeForAssociation` (lines 1420-1510) -/

/-- The criteria object passed to `findPageNodeForAssociation`.  An omitted
JS property is `none`. -/
structure FindParams where
  mustBeHibernated : Bool
  mustBeRestorable : Bool
  topParentMustBeRealOrRestorableWindow : Bool
  url : String
  title : Option String
  referrer : Option String
  historylength : Option Nat
  pinned : Option Bool
  incognito : Option Bool
  notMatchingNode : Option Nat
deriving DecidableEq

/-- JS truthiness of the `params.pinned` criterion (`params.pinned && ...`):
truthy exactly when supplied and `true`. -/
def pinnedTruthy : Option Bool → Bool
  | some true => true
  | _ => false

/-- `fallbackReferrer` computation: a non-empty referrer matching
`CHROME_BLANKABLE_REFERRER_REGEXP` is replaced by the empty string
(`if (referrer && REGEXP.test(referrer)) fallback = ''`). -/
def fallbackOfReferrer (r : String) : String :=
  if r != "" && chromeBlankableReferrerTest r then "" else r

/-- Everything `testNodeForAssociation` checks before its referrer rules, in
source order: the `instanceof PageNode` guard, the `matched` conjunction
(hibernated, restorable, url — with the google-url normalization —, title
with JS truthiness, incognito, pinned, historylength, notMatchingNode), and
the `topParentMustBeRealOrRestorableWindow` guard. -/
def preReferrerMatch (p : FindParams) (n : TNode) : Bool :=
  (n.kind == .page)
    && (!p.mustBeHibernated || n.hibernated)
    && (!p.mustBeRestorable || n.restorable)
    && (if !isGoogleSearchUrl p.url then p.url == n.url
        else isGoogleSearchUrl n.url && (getGoogleTestUrl n.url == getGoogleTestUrl p.url))
    && (match p.title with
        | none => true
        | some t => t == "" || n.title == t)
    && (match p.incognito with
        | none => true
        | some b => n.incognito == b)
    && (match p.pinned with
        | none => true
        | some b => n.pinned == b)
    && (match p.historylength with
        | none => true
        | some h => n.historylength == h)
    && (match p.notMatchingNode with
        | none => true
        | some i => n.id != i)
    && (!p.topParentMustBeRealOrRestorableWindow
        || (n.topParentIsWindowNode
            && !(n.topParentRestorable == false && n.topParentHibernated == true)))

/-- The referrer rules at the end of `testNodeForAssociation`: no referrer
criterion or exact equality accepts; both sides pinned accepts; equality
after blanking each side that matches the chrome-blankable pattern accepts;
otherwise the node is rejected. -/
def referrerMatch (p : FindParams) (n : TNode) : Bool :=
  match p.referrer with
  | none => true
  | some r =>
    r == n.referrer
      || (pinnedTruthy p.pinned && n.pinned)
      || (fallbackOfReferrer r == fallbackOfReferrer n.referrer)

/-- Embeds `testNodeForAssociation` as the conjunction of its pre-referrer
checks and its referrer rules (the source's early returns sequence the same
tests). -/
def testNodeForAssociation (p : FindParams) (n : TNode) : Bool :=
  preReferrerMatch p n && referrerMatch p n

/-- `findPageNodeForAssociation` without `findAll`: `tree.getNode(pred)`
returns the first node of the tree satisfying the predicate. -/
def findPageNodeForAssociation (pool : List TNode) (p : FindParams) : Option TNode :=
  pool.find? (testNodeForAssociation p)

/-- `findPageNodeForAssociation` with `findAll`: `tree.filter(pred)`. -/
def findAllPageNodesForAssociation (pool : List TNode) (p : FindParams) : List TNode :=
  pool.filter (testNodeForAssociation p)

/-! ### `tryFastAssociateTab` (lines 1089-1118) and `tryAssociateTab`
(lines 1035-1087) -/

/-- The filter inside `tryFastAssociateTab`: hibernated PageNodes
(restorable when `mustBeRestorable`) equal to the tab on url, index,
incognito and pinned.  A hibernated node whose stored `index` is `null`
fails the JS loose comparison `tab.index == e.index` against any number. -/
def fastAssociationCandidates (pool : List TNode) (tab : LTab) (mustBeRestorable : Bool) :
    List TNode :=
  pool.filter fun e =>
    e.kind == .page
      && e.hibernated
      && (!mustBeRestorable || e.restorable)
      && tab.url == e.url
      && (match e.index with
          | none => false
          | some i => tab.index == i)
      && tab.incognito == e.incognito
      && tab.pinned == e.pinned

/-- Embeds `tryFastAssociateTab`: with exactly one candidate, or at least
one candidate and a non-scriptable url, the first candidate (`matches[0]`)
is restored; otherwise `undefined` is returned.  `pool` is the collection
searched (the existing window node's subtree when one exists, else the
whole tree). -/
def tryFastAssociateTab (pool : List TNode) (tab : LTab) (mustBeRestorable : Bool) :
    Option TNode :=
  let ms := fastAssociationCandidates pool tab mustBeRestorable
  if ms.length == 1 || (decide (0 < ms.length) && !isScriptableUrl tab.url) then
    ms.head?
  else
    none

/-- The path `tryAssociateTab` takes for one tab. -/
inductive AssocOutcome where
  | skippedIncognito
  | deferredNewTabCheck
  | fastAssociated (n : TNode)
  | addedNewTabNode
  | blindAssociated
  | queuedDetailQuery
deriving DecidableEq

structure TryAssociateResult where
  returnValue : Bool
  outcome : AssocOutcome
  tabIdsPushed : List Nat
deriving DecidableEq

/-- Embeds the decision structure of `tryAssociateTab`.  `isNewTabUrl` is
defined outside the provided sources and is passed as a parameter;
`tabIdsPushed` records the ids pushed onto `runInfo.tabIds`.  The branch
order is the source's: incognito bail-out, the solo-New-Tab asynchronous
check (which returns `false` immediately), fast association, New-Tab node
creation, blind association of non-scriptable urls, and finally the queued
detail query. -/
def tryAssociateTab (isNewTabUrl : String → Bool) (pool : List TNode) (tab : LTab)
    (forceNewTabAssociation : Bool) : TryAssociateResult :=
  if tab.incognito then
    ⟨false, .skippedIncognito, []⟩
  else if !forceNewTabAssociation && isNewTabUrl tab.url && tab.index == 0 && !tab.pinned then
    ⟨false, .deferredNewTabCheck, []⟩
  else
    match tryFastAssociateTab pool tab true with
    | some n => ⟨true, .fastAssociated n, []⟩
    | none =>
      if isNewTabUrl tab.url then ⟨true, .addedNewTabNode, []⟩
      else if !isScriptableUrl tab.url then ⟨true, .blindAssociated, []⟩
      else ⟨false, .queuedDetailQuery, [tab.id]⟩

/-! ### Stubborn-tab escalation (constants at lines 881-891, per-tab branch
of `associatePagesCheck` at lines 1261-1281) -/

def ASSOCIATE_PAGES_CHECK_INTERVAL_MS : Nat := 1000

def ASSOCIATE_STUBBORN_TAB_FALLBACK_THRESHOLD_MS : Nat := 15000

def ASSOCIATE_STUBBORN_TAB_FALLBACK_THRESHOLD_ITERATIONS : Nat :=
  ASSOCIATE_STUBBORN_TAB_FALLBACK_THRESHOLD_MS / ASSOCIATE_PAGES_CHECK_INTERVAL_MS

/-- One `associatePagesCheck` visit to a still-pending tab: the stored
stubborn count (`associationStubbornTabIds[tabId] || 0`) is incremented; when
the incremented count reaches the threshold the tab is fallback-associated
(and the table is not written), otherwise the incremented count is stored.
Returns the stored count after the tick and whether fallback association was
performed on this tick. -/
def associatePagesCheckTabStep (stored : Nat) : Nat × Bool :=
  let count := stored + 1
  if ASSOCIATE_STUBBORN_TAB_FALLBACK_THRESHOLD_ITERATIONS ≤ count then (stored, true)
  else (count, false)

/-- State of one never-responding pending tab after `n` ticks, starting from
an absent table entry (count 0): the stored count, and whether the `n`-th
tick force-bound it.  (After a force-bind the real tab leaves the pending
set; iterating further only re-reads the unchanged stored count.) -/
def stubbornAfter : Nat → Nat × Bool
  | 0 => (0, false)
  | n + 1 => associatePagesCheckTabStep (stubbornAfter n).1

/-! ### Run bookkeeping of `associateTabToPageNode` (lines 1287-1302)

`associationRuns[runId]` holds `{runId, total, count, tabIds}`.  The
stubborn-count table `associationStubbornTabIds` is a list of
(tabId, count) entries. -/

structure RunInfo where
  runId : Nat
  total : Nat
  count : Nat
  tabIds : List Nat
deriving DecidableEq

/-- `Array.prototype.indexOf`: index of the first occurrence, `-1` when
absent. -/
def jsIndexOf (l : List Nat) (x : Nat) : Int :=
  match l.findIdx? (fun y => y == x) with
  | some i => (i : Int)
  | none => -1

/-- `Array.prototype.splice(start, deleteCount)` with no inserted items:
negative starts count from the end (clamped at 0), starts past the end clamp
to the length, and `deleteCount` elements from there are removed. -/
def jsSplice (l : List Nat) (start : Int) (deleteCount : Nat) : List Nat :=
  let s : Nat :=
    if start < 0 then ((l.length : Int) + start).toNat
    else min start.toNat l.length
  l.take s ++ (l.drop s).drop deleteCount

/-- Embeds the live-run bookkeeping at the top of `associateTabToPageNode`:
`runInfo.tabIds.splice(runInfo.tabIds.indexOf(tab.id), 0)` followed by
`runInfo.count++`.  The function never references
`associationStubbornTabIds`, so the stubborn table is returned unchanged. -/
def associateTabToPageNodeRunBookkeeping (run : RunInfo) (stubborn : List (Nat × Nat))
    (tabId : Nat) : RunInfo × List (Nat × Nat) :=
  ({ run with
      tabIds := jsSplice run.tabIds (jsIndexOf run.tabIds tabId) 0,
      count := run.count + 1 },
    stubborn)

/-! ### The `rectifyAssociations` pipeline (lines 1207-1246) -/

inductive RectifyStep where
  | rebuildPageNodeWindowIds
  | associateWindows (requireChildrenCountMatch prohibitMergingWindows : Bool)
  | disambiguatePageNodes
  | movePageNodesToCorrectWindows
  | fixBadNodes
  | removeZeroChildWindowNodes
  | rebuildTabIndex
  | rebuildIndexes
  | rebuildParents
  | fixAllPinnedUnpinnedTabOrder
  | swapPageNodesByIndex
  | conformAllChromeTabIndexes (instant : Bool)
  | removeOldWindows
  | backupPageTreeIfNone
deriving DecidableEq

/-- The stages of `rectifyAssociations` in the order the nested callbacks of
the source run them.  The two Booleans of `associateWindows` are the
positional arguments `(requireChildrenCountMatch, prohibitMergingWindows)`
of `associateWindowstoWindowNodes`. -/
def rectifyAssociationsPipeline : List RectifyStep :=
  [ .rebuildPageNodeWindowIds,
    .associateWindows true false,
    .disambiguatePageNodes,
    .associateWindows true true,
    .disambiguatePageNodes,
    .associateWindows false true,
    .disambiguatePageNodes,
    .associateWindows false false,
    .disambiguatePageNodes,
    .movePageNodesToCorrectWindows,
    .fixBadNodes,
    .removeZeroChildWindowNodes,
    .rebuildPageNodeWindowIds,
    .rebuildTabIndex,
    .rebuildIndexes,
    .rebuildParents,
    .fixAllPinnedUnpinnedTabOrder,
    .swapPageNodesByIndex,
    .conformAllChromeTabIndexes true,
    .conformAllChromeTabIndexes false,
    .removeOldWindows,
    .backupPageTreeIfNone ]

/-- The `(requireChildrenCountMatch, prohibitMergingWindows)` argument pairs
of the four container-association stages, in pipeline order. -/
def associationStageParams : List (Bool × Bool) :=
  rectifyAssociationsPipeline.filterMap fun s =>
    match s with
    | .associateWindows a b => some (a, b)
    | _ => none

/-- The stage parameters asserted by the specification (claim C2): stage 2
stringent with merging prohibited, stage 4 stringent with merging permitted,
stage 6 relaxed with merging prohibited, stage 8 relaxed with merging
permitted.  Stated from the spec's words for comparison with
`associationStageParams`. -/
def claimedAssociationStageParams : List (Bool × Bool) :=
  [(true, true), (true, false), (false, true), (false, false)]

/-! ### `disambiguatePageNodesByWindowId` (lines 1642-1729)

A disambiguation node carries the fields the function reads and swaps.
`parentChromeId` flattens `topParent().chromeId`; the function moves no
node, so each node's top parent — and hence this field — is fixed during a
call, while `chromeId`, `windowId` and `index` mutate via the swaps. -/

structure DN where
  id : Nat
  chromeId : Nat
  windowId : Nat
  index : Nat
  parentChromeId : Nat
  url : String
  referrer : String
  historylength : Nat
  pinned : Bool
  incognito : Bool
  isTab : Bool
deriving DecidableEq

/-- `[e.url, e.referrer, e.historylength, e.pinned, e.incognito].join('|')`. -/
def fuzzyKey (e : DN) : String :=
  String.intercalate "|"
    [e.url, e.referrer, toString e.historylength, toString e.pinned, toString e.incognito]

/-- Tier 1 filter: `e !== item && e.windowId == topParentChromeId &&
item.windowId == e.topParent().chromeId && e.index == item.index`. -/
def swapTier1 (item : DN) (e : DN) : Bool :=
  e.id != item.id && e.windowId == item.parentChromeId
    && item.windowId == e.parentChromeId && e.index == item.index

/-- Tier 2 filter: the reciprocal transposition without the index
requirement. -/
def swapTier2 (item : DN) (e : DN) : Bool :=
  e.id != item.id && e.windowId == item.parentChromeId
    && item.windowId == e.parentChromeId

/-- Tier 3 filter: `e !== item && item.windowId == e.topParent().chromeId`
(a member whose parent's live id equals the working node's recorded
container id). -/
def swapTier3 (item : DN) (e : DN) : Bool :=
  e.id != item.id && item.windowId == e.parentChromeId

/-- Tier 4 filter: `e !== item && e.windowId == topParentChromeId` (a member
whose recorded container id equals the working node's parent's live id). -/
def swapTier4 (item : DN) (e : DN) : Bool :=
  e.id != item.id && e.windowId == item.parentChromeId

/-- The swap-partner cascade of the source: each tier's `items.filter`, the
`length == 0` test, and `swapWith[0]` on the first non-empty tier. -/
def selectSwapPartner (items : List DN) (item : DN) : Option DN :=
  let s1 := items.filter (swapTier1 item)
  if s1.length == 0 then
    let s2 := items.filter (swapTier2 item)
    if s2.length == 0 then
      let s3 := items.filter (swapTier3 item)
      if s3.length == 0 then
        let s4 := items.filter (swapTier4 item)
        if s4.length == 0 then none
        else s4.head?
      else s3.head?
    else s2.head?
  else s1.head?

/-- The swap-partner cascade as the specification's claim C3 words it: its
tiers 1 and 2 agree with the source, its tier 3 is "any member whose
container id equals the node's parent's live id", and its tier 4 is the
tier-3 condition without the reciprocal check (the same predicate).  Stated
from the spec for comparison with `selectSwapPartner`. -/
def selectSwapPartnerSpecClaim (items : List DN) (item : DN) : Option DN :=
  let s1 := items.filter (swapTier1 item)
  if s1.length == 0 then
    let s2 := items.filter (swapTier2 item)
    if s2.length == 0 then
      let s3 := items.filter (swapTier4 item)
      if s3.length == 0 then
        let s4 := items.filter (swapTier4 item)
        if s4.length == 0 then none
        else s4.head?
      else s3.head?
    else s2.head?
  else s1.head?

/-- The three `tree.updateNode` pairs of a disambiguation swap: the pair's
`chromeId`, `windowId` and `index` values are exchanged; nothing else
changes. -/
def swapFields (a b : DN) : DN × DN :=
  ({ a with chromeId := b.chromeId, windowId := b.windowId, index := b.index },
   { b with chromeId := a.chromeId, windowId := a.windowId, index := a.index })

/-- Append `i` to the group of `key`, creating the group at the end on first
occurrence (JS object property insertion order). -/
def addToGroups (gs : List (String × List Nat)) (key : String) (i : Nat) :
    List (String × List Nat) :=
  match gs with
  | [] => [(key, [i])]
  | (k, is) :: rest =>
    if k == key then (k, is ++ [i]) :: rest
    else (k, is) :: addToGroups rest key i

/-- The `tree.groupBy` call: tab nodes whose recorded `windowId` differs
from their top parent's live id, grouped by fuzzy key; groups in
first-occurrence order, members in tree order, identified by node id.
(The source's `if (!topParent) return undefined` guard never fires here:
every node has a top parent.) -/
def disambGroups (st : List DN) : List (List Nat) :=
  (st.foldl
    (fun gs e =>
      if !e.isTab then gs
      else if e.windowId == e.parentChromeId then gs
      else addToGroups gs (fuzzyKey e) e.id)
    []).map (fun g => g.2)

def lookupDN (st : List DN) (i : Nat) : Option DN :=
  st.find? (fun e => e.id == i)

def updateDN (st : List DN) (e : DN) : List DN :=
  st.map (fun x => if x.id == e.id then e else x)

/-- Processing of one group member inside a round: skip when its recorded
`windowId` already matches its parent's live id; otherwise `swapCount++`,
and when a partner is found the swap's six `tree.updateNode` calls are
applied.  Returns the new state, the `swapCount` increment (1 for every
mismatched node processed, found partner or not) and the number of swaps
actually performed (0 or 1) — the latter is instrumentation, not source
state.  Group membership (`groupIds`) was fixed when the groups were built;
all field reads go through the current state, as the source's shared node
references do. -/
def disambProcessItem (st : List DN) (groupIds : List Nat) (itemId : Nat) :
    List DN × Nat × Nat :=
  match lookupDN st itemId with
  | none => (st, 0, 0)
  | some item =>
    if item.windowId == item.parentChromeId then (st, 0, 0)
    else
      let items := groupIds.filterMap (lookupDN st)
      match selectSwapPartner items item with
      | none => (st, 1, 0)
      | some e =>
        let p := swapFields item e
        (updateDN (updateDN st p.1) p.2, 1, 1)

/-- One group's inner loop: `for (i = 0; i < items.length; i++)` visiting
`items[(i + iterations) % items.length]`; groups of fewer than two members
are skipped. -/
def disambProcessGroup (st : List DN) (ids : List Nat) (iterations : Nat) :
    List DN × Nat × Nat :=
  if ids.length < 2 then (st, 0, 0)
  else
    (List.range ids.length).foldl
      (fun acc i =>
        match ids.get? ((i + iterations) % ids.length) with
        | none => acc
        | some itemId =>
          let r := disambProcessItem acc.1 ids itemId
          (r.1, acc.2.1 + r.2.1, acc.2.2 + r.2.2))
      (st, 0, 0)

/-- One full round of `disambiguatePageNodesByWindowId` before its recursion
decision: groups are computed once from the state at entry, then processed
in order.  Returns (state, swapCount, swaps actually performed). -/
def disambRound (st : List DN) (iterations : Nat) : List DN × Nat × Nat :=
  (disambGroups st).foldl
    (fun acc ids =>
      let r := disambProcessGroup acc.1 ids iterations
      (r.1, acc.2.1 + r.2.1, acc.2.2 + r.2.2))
    (st, 0, 0)

/-- The recursion of `disambiguatePageNodesByWindowId`: after a round, when
`swapCount > 0 && iterations > 1` the function re-invokes itself with
`iterations - 1`.  Returns the final state and the number of rounds run.
The source's single recursion guard `swapCount > 0 && iterations > 1` is
split over the two match arms — when `iterations ≤ 1` the guard is false
regardless of the round's `swapCount` — so the recursion is structural. -/
def disambiguateGo (iterations : Nat) (st : List DN) : List DN × Nat :=
  match iterations with
  | n + 2 =>
    let r := disambRound st (n + 2)
    if 0 < r.2.1 then
      let g := disambiguateGo (n + 1) r.1
      (g.1, g.2 + 1)
    else
      (r.1, 1)
  | _ =>
    let r := disambRound st iterations
    (r.1, 1)

/-- Embeds `disambiguatePageNodesByWindowId(iterations)`: `iterations`
defaults to 3 when `undefined`. -/
def disambiguatePageNodesByWindowId (iterations : Option Nat) (st : List DN) :
    List DN × Nat :=
  disambiguateGo (iterations.getD 3) st

/-! ### `associateWindowstoWindowNodes` (lines 1514-1634)

Scores are exact multiples of 0.00001 carried as `Nat`s scaled by 100000
(1.0 per matching descendant, +0.00001 when the recorded index equals the
live index).  `jsNumToString` renders such a score the way JS
`Number.prototype.toString` renders the corresponding decimal value, and
`jsStrLt` is the UTF-16 lexicographic comparison that `Array.prototype.sort`
applies to stringified elements when called with no comparator — the
comparison the source's `countValues.sort()` performs. -/

structure ATab where
  id : Nat
  windowId : Nat
  index : Nat
  pinned : Bool
  incognito : Bool
deriving DecidableEq

structure APage where
  chromeId : Nat
  index : Nat
  pinned : Bool
  incognito : Bool
  isTab : Bool
deriving DecidableEq

structure AWin where
  id : Nat
  children : List APage
deriving DecidableEq

/-- Left-pad the fractional part to five digits. -/
def padFrac (f : Nat) : String :=
  let s := toString f
  String.mk (List.replicate (5 - s.length) '0') ++ s

def stripTrailingZeros (s : String) : String :=
  String.mk ((s.data.reverse.dropWhile (fun c => c == '0')).reverse)

/-- Decimal rendering of a score scaled by 100000, as JS renders the
number: no point for whole values, otherwise the fractional digits without
trailing zeros. -/
def jsNumToString (scaled : Nat) : String :=
  if scaled % 100000 == 0 then toString (scaled / 100000)
  else toString (scaled / 100000) ++ "." ++ stripTrailingZeros (padFrac (scaled % 100000))

def charListLt : List Char → List Char → Bool
  | [], [] => false
  | [], _ :: _ => true
  | _ :: _, [] => false
  | a :: as, b :: bs =>
    if a.val < b.val then true
    else if b.val < a.val then false
    else charListLt as bs

/-- Lexicographic string comparison on UTF-16 units; all strings compared
here are ASCII decimal renderings, where code points and UTF-16 units
coincide. -/
def jsStrLt (a b : String) : Bool :=
  charListLt a.data b.data

/-- Add `add` to the per-`windowId` accumulator, keeping first-insertion
order (`last[windowId] = (last[windowId] || 0.0) + ...`). -/
def bumpGroup (groups : List (Nat × Nat)) (wid : Nat) (add : Nat) : List (Nat × Nat) :=
  match groups with
  | [] => [(wid, add)]
  | (w, s) :: rest =>
    if w == wid then (w, s + add) :: rest
    else (w, s) :: bumpGroup rest wid add

/-- The `tree.reduce` over one restorable window node's descendants: each
tab descendant whose pinned and incognito flags equal its live tab's adds
`1.0 + (e.index == tab.index ? 0.00001 : 0)` to the accumulator of the live
tab's `windowId`, and bumps the node's matching-descendant count.  A tab
descendant with no live tab would crash the source's `first(tabs, ...)[1]`;
it contributes nothing here and never occurs in the inputs considered. -/
def windowGroupsFor (tabs : List ATab) (children : List APage) : List (Nat × Nat) × Nat :=
  children.foldl
    (fun acc e =>
      if !e.isTab then acc
      else
        match tabs.find? (fun t => t.id == e.chromeId) with
        | none => acc
        | some tab =>
          if e.pinned != tab.pinned || e.incognito != tab.incognito then acc
          else
            (bumpGroup acc.1 tab.windowId (100000 + (if e.index == tab.index then 1 else 0)),
             acc.2 + 1))
    ([], 0)

/-- One `counts` entry: the stringified score (the object key), the score it
stands for, and the `[win, windowId]` pairs pushed under it. -/
structure CountEntry where
  key : String
  scaled : Nat
  pairs : List (Nat × Nat)
deriving DecidableEq

/-- `counts[count].push([win, g])`, creating the key on first use. -/
def pushCount (counts : List CountEntry) (key : String) (scaled : Nat) (pair : Nat × Nat) :
    List CountEntry :=
  match counts with
  | [] => [⟨key, scaled, [pair]⟩]
  | c :: rest =>
    if c.key == key then ⟨c.key, c.scaled, c.pairs ++ [pair]⟩ :: rest
    else c :: pushCount rest key scaled pair

def insertCountEntry (x : CountEntry) : List CountEntry → List CountEntry
  | [] => [x]
  | y :: ys => if jsStrLt x.key y.key then x :: y :: ys else y :: insertCountEntry x ys

/-- `countValues.sort()`: ascending in the lexicographic order of the
stringified scores.  The keys are pairwise distinct and string order is
total, so any enumeration order of the `counts` object yields the same
sorted list; insertion sort realizes it. -/
def sortCountEntries (l : List CountEntry) : List CountEntry :=
  l.foldr insertCountEntry []

structure AWWResult where
  processed : List (Nat × Nat × Nat)
  restored : List (Nat × Nat)
  merged : List (Nat × Nat)
deriving DecidableEq

structure AWWPassState where
  usedWindowIds : List Nat
  usedWindowNodes : List Nat
  res : AWWResult
deriving DecidableEq

def lookupCount (l : List (Nat × Nat)) (k : Nat) : Option Nat :=
  match l.find? (fun p => p.1 == k) with
  | some p => some p.2
  | none => none

/-- Processing of one `[win, windowId]` pair in the main pass:  skip when
the live id or the node was consumed earlier this pass; skip when stringent
matching is on and the node's matching-descendant count differs from the
live window's tab count (JS `!=` on possibly-undefined counts is `Option`
inequality); when a live window node with this id already exists, merge it
(recorded in `merged`) unless merging is prohibited, in which case skip; on
association the restorable node is restored (recorded in `restored`) and
both sides are marked used.  Every visited pair is recorded in `processed`
together with its score. -/
def processPair (requireChildrenCountMatch prohibitMergingWindows : Bool)
    (existingWindowNode : Nat → Option Nat)
    (winNodePageCounts : List (Nat × Nat)) (windowTabCount : Nat → Nat)
    (st : AWWPassState) (winId windowId scaled : Nat) : AWWPassState :=
  let res := { st.res with processed := st.res.processed ++ [(winId, windowId, scaled)] }
  if st.usedWindowIds.contains windowId || st.usedWindowNodes.contains winId then
    { st with res := res }
  else
    let liveCount : Option Nat :=
      if windowTabCount windowId == 0 then none else some (windowTabCount windowId)
    if requireChildrenCountMatch && lookupCount winNodePageCounts winId != liveCount then
      { st with res := res }
    else
      match existingWindowNode windowId with
      | some exId =>
        if prohibitMergingWindows then { st with res := res }
        else
          { usedWindowIds := st.usedWindowIds ++ [windowId],
            usedWindowNodes := st.usedWindowNodes ++ [winId],
            res :=
              { res with
                  merged := res.merged ++ [(exId, winId)],
                  restored := res.restored ++ [(winId, windowId)] } }
      | none =>
        { usedWindowIds := st.usedWindowIds ++ [windowId],
          usedWindowNodes := st.usedWindowNodes ++ [winId],
          res := { res with restored := res.restored ++ [(winId, windowId)] } }

/-- Embeds `associateWindowstoWindowNodes(requireChildrenCountMatch,
prohibitMergingWindows)` for a set of restorable window nodes `wins` (the
`tree.filter` result, in tree order), live tabs `tabs`, and the pre-pass
live-window-node index `existingWindowNode` (`tree.getNode(['chromeId', id])`;
a window id freshly associated during the pass is guarded by
`usedWindowIds` before any lookup, so the pre-pass index suffices).  The
source iterates `wins` from last to first when building `counts`, iterates
the sorted score strings from last to first, and each score's pair list
from last to first. -/
def associateWindowstoWindowNodes (tabs : List ATab) (wins : List AWin)
    (requireChildrenCountMatch prohibitMergingWindows : Bool)
    (existingWindowNode : Nat → Option Nat) : AWWResult :=
  let windowTabCount : Nat → Nat := fun wid =>
    (tabs.filter (fun t => t.windowId == wid)).length
  let built :=
    wins.reverse.foldl
      (fun (acc : List CountEntry × List (Nat × Nat)) win =>
        let g := windowGroupsFor tabs win.children
        let counts :=
          g.1.foldl (fun cs p => pushCount cs (jsNumToString p.2) p.2 (win.id, p.1)) acc.1
        let pcs := if g.2 == 0 then acc.2 else acc.2 ++ [(win.id, g.2)]
        (counts, pcs))
      ([], [])
  let classes := (sortCountEntries built.1).reverse
  let final :=
    classes.foldl
      (fun st c =>
        c.pairs.reverse.foldl
          (fun st' p =>
            processPair requireChildrenCountMatch prohibitMergingWindows existingWindowNode
              built.2 windowTabCount st' p.1 p.2 c.scaled)
          st)
      ⟨[], [], ⟨[], [], []⟩⟩
  final.res

/-! ### `mergeWindowsPreservingTabIndexes` (lines 1921-1976)

`MNode` is a child node of one of the two windows: its id, its recorded
live `index`, whether it is a tab (`isTab()`), and its number of children.
`incoming` and `existing` are the snapshots the source takes of the two
windows' child lists before the loop; the loop inspects only the `existing`
snapshot when looking for index neighbors, so nodes inserted during the
merge are never found by those lookups.  Nesting (`'prepend'` into a
preceding node) requires that node to have children already, and nesting
into it keeps that true, so the snapshot's child counts stay accurate for
the emptiness tests. -/

structure MNode where
  id : Nat
  index : Nat
  isTab : Bool
  kids : Nat
deriving DecidableEq

structure MergeResult where
  order : List MNode
  nested : List (Nat × Nat)
  warns : Nat
deriving DecidableEq

def insertBeforeId (l : List MNode) (target : Nat) (node : MNode) : List MNode :=
  match l with
  | [] => [node]
  | x :: xs => if x.id == target then node :: x :: xs else x :: insertBeforeId xs target node

def insertAfterId (l : List MNode) (target : Nat) (node : MNode) : List MNode :=
  match l with
  | [] => [node]
  | x :: xs => if x.id == target then x :: node :: xs else x :: insertAfterId xs target node

structure MergeState where
  order : List MNode
  anchor : Option Nat
  nested : List (Nat × Nat)
  warns : Nat
deriving DecidableEq

/-- One loop iteration of `mergeWindowsPreservingTabIndexes` for the child
`node`: non-tab children and children at live index 0 go after the current
`insertPosition` (or to the front when none is set) and become the new
`insertPosition`; otherwise the `existing` snapshot is searched for a tab at
`index + 1` (insert before it) or at `index - 1` (nest into it when it has
children, else insert after it); with neither neighbor, a warning is counted
and the child is appended, leaving `insertPosition` unchanged. -/
def mergeStep (existing : List MNode) (st : MergeState) (node : MNode) : MergeState :=
  if !node.isTab || node.index == 0 then
    match st.anchor with
    | some a => { st with order := insertAfterId st.order a node, anchor := some node.id }
    | none => { st with order := node :: st.order, anchor := some node.id }
  else
    match existing.find? (fun e => e.isTab && e.index == node.index + 1) with
    | some following => { st with order := insertBeforeId st.order following.id node,
                                  anchor := some node.id }
    | none =>
      match existing.find? (fun e => e.isTab && e.index == node.index - 1) with
      | some preceding =>
        if 0 < preceding.kids then
          { st with nested := st.nested ++ [(node.id, preceding.id)] }
        else
          { st with order := insertAfterId st.order preceding.id node, anchor := some node.id }
      | none =>
        { st with order := st.order ++ [node], warns := st.warns + 1 }

/-- Embeds `mergeWindowsPreservingTabIndexes(fromWindow, toWindow)`:
`incoming` and `existing` are the child snapshots of the two windows, the
loop runs `for (i = incoming.length - 1; i >= 0; i--)` — from the last
source child to the first. -/
def mergeWindowsPreservingTabIndexes (incoming existing : List MNode) : MergeResult :=
  let final := incoming.reverse.foldl (mergeStep existing) ⟨existing, none, [], 0⟩
  ⟨final.order, final.nested, final.warns⟩

/-! ### Concrete inputs used by the claims' witnesses and counterexamples -/

/-- Twelve live tabs, all in live window 101, at live indexes 0..11. -/
def c1tabs : List ATab := (List.range 12).map (fun i => ⟨i + 1, 101, i, false, false⟩)

/-- A restorable window node with ten tab descendants bound to live tabs
1..10 (recorded indexes differ from the live ones, so no tie-break bonus
applies and the score stays a whole number). -/
def c1winA : AWin := ⟨1, (List.range 10).map (fun i => ⟨i + 1, 50 + i, false, false, true⟩)⟩

/-- A restorable window node with two tab descendants bound to live tabs 11
and 12. -/
def c1winB : AWin := ⟨2, [⟨11, 60, false, false, true⟩, ⟨12, 61, false, false, true⟩]⟩

def c3item : DN := ⟨0, 100, 5, 0, 9, "u", "r", 1, false, false, true⟩

/-- Satisfies the source's tier 3 against `c3item` (its parent's live id 5
equals `c3item`'s recorded container id) but not the claim's tier 3 (its
container id 7 differs from `c3item`'s parent's live id 9). -/
def c3e1 : DN := ⟨1, 101, 7, 0, 5, "u", "r", 1, false, false, true⟩

/-- Satisfies the claim's tier 3 against `c3item` (its container id 9
equals `c3item`'s parent's live id) but not the source's tier 3 (its
parent's live id 3 differs from `c3item`'s recorded container id 5). -/
def c3e2 : DN := ⟨2, 102, 9, 0, 3, "u", "r", 1, false, false, true⟩

/-- Source children of the merge at live positions 0, 1, 2. -/
def c4incoming : List MNode := [⟨10, 0, true, 0⟩, ⟨11, 1, true, 0⟩, ⟨12, 2, true, 0⟩]

/-- Destination child list already holding live position 1. -/
def c4dest : List MNode := [⟨20, 1, true, 0⟩]

def c5node1 : TNode :=
  ⟨.page, 1, "chrome://settings", "", "", 1, false, false, true, true, some 0, true, true, true⟩

def c5node2 : TNode :=
  ⟨.page, 2, "chrome://settings", "", "", 1, false, false, true, true, some 0, true, true, true⟩

/-- A live tab at an internal settings page: `chrome://settings` matches the
`chrome.*:` arm of the non-scriptable pattern. -/
def c5tab : LTab := ⟨100, 7, "chrome://settings", 0, false, false, false⟩

def c6p : FindParams :=
  ⟨true, true, false, "x", none, some "http://a.google.x/url?source=web", some 1,
    some false, some false, none⟩

def c6n : TNode :=
  ⟨.page, 3, "x", "t", "", 1, false, false, true, true, some 0, true, true, true⟩

/-- Two same-fuzzy-key tab nodes, both with recorded container id 100 under
a parent whose live id is 1: both are mismatched, and no member of the group
satisfies any swap tier for the other. -/
def c9a : DN := ⟨1, 100, 100, 0, 1, "u", "r", 1, false, false, true⟩

def c9b : DN := ⟨2, 101, 100, 1, 1, "u", "r", 1, false, false, true⟩

def c10tab : LTab := ⟨5, 9, "http://example.com/", 0, false, true, false⟩

/-! ### Shared helper lemmas -/

theorem head?_filter_eq_find? {α : Type} (p : α → Bool) (l : List α) :
    (l.filter p).head? = l.find? p := by
  induction l with
  | nil => rfl
  | cons a t ih => cases h : p a <;> simp [List.filter_cons, List.find?_cons, h, ih]

theorem filter_beqLength_zero_eq {α : Type} (p : α → Bool) (l : List α) :
    ((l.filter p).length == 0) = (l.find? p).isNone := by
  rw [← head?_filter_eq_find?]
  cases h : l.filter p <;> simp [h]

/-! ### Claim C1 -/

/-- Claim C1 (container-association scoring and processing order).  The
scoring formula and the skip rule hold, but the claim's "descending numeric
score order" fails: `countValues.sort()` orders the default-stringified
scores lexicographically, so with window node 1 scoring 10.0 and window node
2 scoring 2.0 — both for live window 101 — the pass visits the score-2 pair
first ("10" < "2" as strings), associates node 2 with live window 101, and
then skips the strictly higher-scoring pair, contradicting the code's own
skip-path log message about higher-scoring pairings.  The theorem evaluates
the embedded pass at that input: the visited pairs carry scores 200000 then
1000000 (scaled by 100000), i.e. ascending, and the association goes to the
score-2 node. -/
theorem C1_score_order_bug :
    (associateWindowstoWindowNodes c1tabs [c1winA, c1winB] false false (fun _ => none)).processed
        = [(2, 101, 200000), (1, 101, 1000000)]
      ∧ (associateWindowstoWindowNodes c1tabs [c1winA, c1winB] false false
          (fun _ => none)).restored = [(2, 101)]
      ∧ 200000 < 1000000 := by
  decide

/-! ### Claim C2 -/

/-- Claim C2, counterexample: the pipeline's association-stage parameters
differ from the claim's (the claim swaps the merge permission of stages 2
and 4: the source's stage 2 is `associateWindowstoWindowNodes(true, false)`
— merging permitted — and its stage 4 is `(true, true)` — merging
prohibited). -/
theorem C2_counterexample : associationStageParams ≠ claimedAssociationStageParams := by
  decide

/-- Claim C2 as amended: the four container-association stages run in the
order stringent-with-merging-permitted, stringent-with-merging-prohibited,
relaxed-with-merging-prohibited, relaxed-with-merging-permitted, i.e. the
`(requireChildrenCountMatch, prohibitMergingWindows)` pairs are
`(true, false), (true, true), (false, true), (false, false)`. -/
theorem C2_stage_order :
    associationStageParams = [(true, false), (true, true), (false, true), (false, false)] := by
  decide

/-! ### Claim C3 -/

/-- Claim C3, counterexample: on the group `[c3item, c3e1, c3e2]` with
working node `c3item` (tiers 1 and 2 empty), the source's cascade selects
`c3e1` — the member whose parent's live id equals `c3item`'s recorded
container id — while the claim's tier 3 ("any member whose container id
equals the node's parent's live id") selects `c3e2`; the claim's selection
rule therefore differs from the code's. -/
theorem C3_counterexample :
    selectSwapPartner [c3item, c3e1, c3e2] c3item = some c3e1
      ∧ selectSwapPartnerSpecClaim [c3item, c3e1, c3e2] c3item = some c3e2
      ∧ selectSwapPartner [c3item, c3e1, c3e2] c3item
          ≠ selectSwapPartnerSpecClaim [c3item, c3e1, c3e2] c3item := by
  decide

/-- Claim C3 as amended: the swap partner is the first group member
satisfying, in priority order, (1) the reciprocal container-id/parent-live-id
transposition with equal position, (2) the same transposition without the
position requirement, (3) any member whose parent's live id equals the
working node's recorded container id, (4) any member whose container id
equals the working node's parent's live id; and a swap exchanges exactly the
container id (`windowId`), the live entity id (`chromeId`) and the position
index between the two nodes, leaving every other field unchanged. -/
theorem C3_swap_selection :
    (∀ (items : List DN) (item : DN),
      selectSwapPartner items item =
        (match items.find? (swapTier1 item) with
         | some e => some e
         | none =>
           match items.find? (swapTier2 item) with
           | some e => some e
           | none =>
             match items.find? (swapTier3 item) with
             | some e => some e
             | none => items.find? (swapTier4 item)))
      ∧ (∀ a b : DN,
          (swapFields a b).1.chromeId = b.chromeId
            ∧ (swapFields a b).1.windowId = b.windowId
            ∧ (swapFields a b).1.index = b.index
            ∧ (swapFields a b).1.id = a.id
            ∧ (swapFields a b).1.parentChromeId = a.parentChromeId
            ∧ (swapFields a b).1.url = a.url
            ∧ (swapFields a b).1.referrer = a.referrer
            ∧ (swapFields a b).1.historylength = a.historylength
            ∧ (swapFields a b).1.pinned = a.pinned
            ∧ (swapFields a b).1.incognito = a.incognito
            ∧ (swapFields a b).1.isTab = a.isTab
            ∧ (swapFields a b).2 = (swapFields b a).1) := by
  constructor
  · intro items item
    unfold selectSwapPartner
    simp only [filter_beqLength_zero_eq, head?_filter_eq_find?]
    cases items.find? (swapTier1 item) <;>
      cases items.find? (swapTier2 item) <;>
        cases items.find? (swapTier3 item) <;>
          cases items.find? (swapTier4 item) <;> simp
  · intro a b
    refine ⟨rfl, rfl, rfl, rfl, rfl, rfl, rfl, rfl, rfl, rfl, rfl, rfl⟩

/-! ### Claim C4 -/

/-- Claim C4, counterexample: merging source children at live positions
[0, 1, 2] into a destination already holding position 1 does not yield an
order consistent with [0, 1, 2]: the resulting position sequence is
[1, 2, 0, 1], which is not weakly increasing. -/
theorem C4_counterexample :
    (mergeWindowsPreservingTabIndexes c4incoming c4dest).order.map (fun n => n.index)
        = [1, 2, 0, 1]
      ∧ ¬ List.Pairwise (fun a b => a ≤ b)
          ((mergeWindowsPreservingTabIndexes c4incoming c4dest).order.map (fun n => n.index)) := by
  decide

/-- Claim C4 as amended: the merge walks the source container's children
from last to first; a child with live index 0 (or a non-tab child) goes
after the most recently placed child, or to the front when none has been
placed; a snapshot destination child at index+1 causes insert-before, one at
index−1 causes insert-after (or nesting when that neighbor has children); a
child with neither snapshot neighbor is appended at the end with an
adjacency-miss flagged, and just-inserted siblings are invisible to the
snapshot lookups.  On the spec's scenario this yields destination children
20, 12, 10, 11 at positions [1, 2, 0, 1], with exactly one adjacency miss
and no nesting. -/
theorem C4_merge_order :
    (mergeWindowsPreservingTabIndexes c4incoming c4dest).order.map (fun n => n.id)
        = [20, 12, 10, 11]
      ∧ (mergeWindowsPreservingTabIndexes c4incoming c4dest).order.map (fun n => n.index)
        = [1, 2, 0, 1]
      ∧ (mergeWindowsPreservingTabIndexes c4incoming c4dest).warns = 1
      ∧ (mergeWindowsPreservingTabIndexes c4incoming c4dest).nested = [] := by
  decide

/-! ### Claim C5 -/

/-- Claim C5: `tryFastAssociateTab` binds a live tab if and only if exactly
one candidate exists, or at least one candidate exists and the tab's url is
not scriptable; when it binds, the bound node is the first candidate.  The
candidate set is the hibernated PageNodes (restorable when required) equal
to the tab on url, index, incognito and pinned. -/
theorem tryFastAssociateTab_eq_ite (pool : List TNode) (tab : LTab) (mustBeRestorable : Bool) :
    tryFastAssociateTab pool tab mustBeRestorable =
      if ((fastAssociationCandidates pool tab mustBeRestorable).length == 1
          || (decide (0 < (fastAssociationCandidates pool tab mustBeRestorable).length)
              && !isScriptableUrl tab.url)) then
        (fastAssociationCandidates pool tab mustBeRestorable).head?
      else none := rfl

theorem C5_fast_associate_iff (pool : List TNode) (tab : LTab) (mustBeRestorable : Bool) :
    ((tryFastAssociateTab pool tab mustBeRestorable).isSome = true ↔
      ((fastAssociationCandidates pool tab mustBeRestorable).length = 1
        ∨ (0 < (fastAssociationCandidates pool tab mustBeRestorable).length
            ∧ isScriptableUrl tab.url = false)))
      ∧ ∀ n : TNode, tryFastAssociateTab pool tab mustBeRestorable = some n →
          (fastAssociationCandidates pool tab mustBeRestorable).head? = some n := by
  constructor
  · rw [tryFastAssociateTab_eq_ite]
    split
    case isTrue h =>
      simp only [Bool.or_eq_true, beq_iff_eq, Bool.and_eq_true, decide_eq_true_eq,
        Bool.not_eq_true'] at h
      have hlen : 0 < (fastAssociationCandidates pool tab mustBeRestorable).length := by
        rcases h with h | ⟨h, _⟩ <;> omega
      have : (fastAssociationCandidates pool tab mustBeRestorable).head?.isSome = true := by
        cases hc : fastAssociationCandidates pool tab mustBeRestorable with
        | nil => rw [hc] at hlen; simp at hlen
        | cons a t => simp
      simp [this, h]
    case isFalse h =>
      simp only [Bool.or_eq_true, beq_iff_eq, Bool.and_eq_true, decide_eq_true_eq,
        Bool.not_eq_true'] at h
      push_neg at h
      simp only [Option.isSome_none, Bool.false_eq_true, false_iff]
      intro hcontra
      rcases hcontra with h1 | ⟨h1, h2⟩
      · exact absurd h1 h.1
      · exact absurd h2 (h.2 h1)
  · intro n hsome
    rw [tryFastAssociateTab_eq_ite] at hsome
    split at hsome
    · exact hsome
    · exact absurd hsome (by simp)

/-- Claim C5 witness: two identical hibernated restorable candidates for a
`chrome://settings` tab — a non-scriptable url — are found, the tab is
bound immediately, and the binding goes to the first candidate. -/
theorem C5_witness :
    (fastAssociationCandidates [c5node1, c5node2] c5tab true).length = 2
      ∧ (tryFastAssociateTab [c5node1, c5node2] c5tab true).isSome = true
      ∧ (fastAssociationCandidates [c5node1, c5node2] c5tab true).head? = some c5node1 :=
  ⟨by decide,
    (C5_fast_associate_iff [c5node1, c5node2] c5tab true).1.mpr
      (Or.inr ⟨by decide, by decide⟩),
    (C5_fast_associate_iff [c5node1, c5node2] c5tab true).2 c5node1 (by decide)⟩

/-! ### Claim C6 -/

/-- Claim C6: when a referrer criterion `r` is supplied and differs from the
candidate's stored referrer, and every pre-referrer check passes, the
candidate matches exactly when the query's pinned criterion is truthy and
the candidate is pinned (referrer ignored), or when the two referrers are
equal after each side matching the chrome-blankable pattern is replaced by
the empty string; a candidate differing under both rules does not match. -/
theorem C6_referrer_rule (p : FindParams) (n : TNode) (r : String)
    (h1 : p.referrer = some r) (h2 : r ≠ n.referrer)
    (h3 : preReferrerMatch p n = true) :
    testNodeForAssociation p n = true ↔
      ((pinnedTruthy p.pinned = true ∧ n.pinned = true)
        ∨ fallbackOfReferrer r = fallbackOfReferrer n.referrer) := by
  have hr : (r == n.referrer) = false := by
    simp only [beq_eq_false_iff_ne, ne_eq]
    exact h2
  simp [testNodeForAssociation, referrerMatch, h1, h3, hr]

/-- Claim C6 witness: a query referrer matching the chrome-blankable pattern
against a candidate whose stored referrer is empty — unequal as strings,
unpinned on both sides — still matches, via the blanked comparison. -/
theorem C6_witness : testNodeForAssociation c6p c6n = true :=
  (C6_referrer_rule c6p c6n "http://a.google.x/url?source=web" rfl (by decide) (by decide)).mpr
    (Or.inr (by decide))

/-! ### Claim C7 -/

theorem stubbornAfter_closed (n : Nat) : stubbornAfter n = (min n 14, decide (15 ≤ n)) := by
  induction n with
  | zero => simp [stubbornAfter]
  | succ n ih =>
    have hthr : ASSOCIATE_STUBBORN_TAB_FALLBACK_THRESHOLD_ITERATIONS = 15 := rfl
    simp only [stubbornAfter, ih, associatePagesCheckTabStep, hthr]
    rcases le_or_lt 14 n with h | h
    · rw [Nat.min_eq_right (by omega), if_pos (by omega)]
      simp only [Prod.mk.injEq]
      refine ⟨by omega, ?_⟩
      symm
      rw [decide_eq_true_eq]
      omega
    · rw [Nat.min_eq_left (by omega), if_neg (by omega)]
      simp only [Prod.mk.injEq]
      refine ⟨by omega, ?_⟩
      symm
      rw [decide_eq_false_iff_not]
      omega

/-- Claim C7: a never-responding pending tab is force-bound by
`associatePagesCheck` exactly at the tick at which its stubborn count
reaches the threshold — never earlier — and the threshold equals the
fallback budget divided by the tick interval, 15000 / 1000 = 15. -/
theorem C7_stubborn_threshold :
    (∀ n : Nat,
      (stubbornAfter n).2 = true ↔ ASSOCIATE_STUBBORN_TAB_FALLBACK_THRESHOLD_ITERATIONS ≤ n)
      ∧ ASSOCIATE_STUBBORN_TAB_FALLBACK_THRESHOLD_ITERATIONS
          = ASSOCIATE_STUBBORN_TAB_FALLBACK_THRESHOLD_MS / ASSOCIATE_PAGES_CHECK_INTERVAL_MS
      ∧ ASSOCIATE_STUBBORN_TAB_FALLBACK_THRESHOLD_ITERATIONS = 15 := by
  refine ⟨?_, rfl, rfl⟩
  intro n
  rw [stubbornAfter_closed]
  show decide (15 ≤ n) = true ↔ ASSOCIATE_STUBBORN_TAB_FALLBACK_THRESHOLD_ITERATIONS ≤ n
  rw [decide_eq_true_eq]
  exact Iff.rfl

/-! ### Claim C8 -/

/-- Claim C8 is contradicted by the code: the "removal" of the tab id from
the run's pending list is `tabIds.splice(indexOf(tab.id), 0)` — a splice
with delete-count 0, which removes nothing — and `associateTabToPageNode`
(and the whole file) never deletes entries of `associationStubbornTabIds`.
The theorem shows the bookkeeping leaves `tabIds` and the stubborn table
unchanged for every input, and evaluates the failing input: a run whose
pending list is `[42]` with a stubborn entry `(42, 5)` still has both after
tab 42 is associated. -/
theorem C8_bookkeeping_bug :
    (∀ (run : RunInfo) (stubborn : List (Nat × Nat)) (tabId : Nat),
      (associateTabToPageNodeRunBookkeeping run stubborn tabId).1.tabIds = run.tabIds
        ∧ (associateTabToPageNodeRunBookkeeping run stubborn tabId).2 = stubborn
        ∧ (associateTabToPageNodeRunBookkeeping run stubborn tabId).1.count = run.count + 1)
      ∧ associateTabToPageNodeRunBookkeeping ⟨7, 1, 0, [42]⟩ [(42, 5)] 42
          = (⟨7, 1, 1, [42]⟩, [(42, 5)]) := by
  constructor
  · intro run stubborn tabId
    refine ⟨?_, rfl, rfl⟩
    show jsSplice run.tabIds (jsIndexOf run.tabIds tabId) 0 = run.tabIds
    unfold jsSplice
    simp [List.take_append_drop]
  · decide

/-! ### Claim C9 -/

/-- Claim C9, counterexample: on the state `[c9a, c9b]` — one fuzzy-key
group of two mismatched nodes with no swap partner for either — the round
performs zero swaps and leaves the state unchanged, yet its `swapCount` is
positive (it counts processed mismatched nodes, not performed swaps), so the
function re-invokes itself and runs all 3 rounds; the claim's "re-invokes
only when at least one swap occurred" is false. -/
theorem C9_counterexample :
    (disambRound [c9a, c9b] 3).2.2 = 0
      ∧ (disambRound [c9a, c9b] 3).1 = [c9a, c9b]
      ∧ 0 < (disambRound [c9a, c9b] 3).2.1
      ∧ (disambiguatePageNodesByWindowId none [c9a, c9b]).2 = 3 := by
  decide

/-- Claim C9 as amended: `disambiguatePageNodesByWindowId` always
terminates — with the iterations parameter defaulting to 3 when undefined,
the number of rounds is at most `max iterations 1` (at most 3 for the
default), and it re-invokes itself (with `iterations - 1`) only when the
current round's swap counter — which counts processed mismatched nodes,
including those for which no partner was found — is positive and
`iterations > 1`. -/
theorem C9_bounded_rounds :
    (∀ (it : Nat) (st : List DN), (disambiguateGo it st).2 ≤ max it 1)
      ∧ (∀ st : List DN, (disambiguatePageNodesByWindowId none st).2 ≤ 3)
      ∧ (∀ (it : Nat) (st : List DN), 1 < (disambiguateGo it st).2 →
          0 < (disambRound st it).2.1 ∧ 1 < it) := by
  have hbound : ∀ (it : Nat) (st : List DN), (disambiguateGo it st).2 ≤ max it 1 := by
    intro it
    induction it using Nat.strong_induction_on with
    | _ it ih =>
      intro st
      match it with
      | 0 => simp [disambiguateGo]
      | 1 => simp [disambiguateGo]
      | n + 2 =>
        simp only [disambiguateGo]
        split
        · have := ih (n + 1) (by omega) (disambRound st (n + 2)).1
          simp only [Nat.max_eq_left (by omega : 1 ≤ n + 1)] at this
          simp only [Nat.max_eq_left (by omega : 1 ≤ n + 2)]
          omega
        · simp
  refine ⟨hbound, ?_, ?_⟩
  · intro st
    have := hbound 3 st
    simpa [disambiguatePageNodesByWindowId] using this
  · intro it st h
    match it with
    | 0 => simp [disambiguateGo] at h
    | 1 => simp [disambiguateGo] at h
    | n + 2 =>
      simp only [disambiguateGo] at h
      split at h
      · exact ⟨by assumption, by omega⟩
      · simp at h

/-- Claim C9 witness: the recursion condition of `C9_bounded_rounds` is
exercised at the concrete state `[c9a, c9b]` with 3 iterations: more than
one round ran, hence the first round's swap counter was positive and the
iteration budget exceeded 1. -/
theorem C9_witness : 0 < (disambRound [c9a, c9b] 3).2.1 ∧ 1 < 3 :=
  C9_bounded_rounds.2.2 3 [c9a, c9b] (by decide)

/-! ### Claim C10 -/

/-- Claim C10: an incognito live tab makes `tryAssociateTab` return `false`
immediately: no fast association, no New-Tab handling, no blind association,
no detail query, and nothing pushed onto the run's pending `tabIds`. -/
theorem C10_incognito_skip (isNewTabUrl : String → Bool) (pool : List TNode) (tab : LTab)
    (force : Bool) (h : tab.incognito = true) :
    tryAssociateTab isNewTabUrl pool tab force = ⟨false, .skippedIncognito, []⟩ := by
  simp [tryAssociateTab, h]

/-- Claim C10 witness: a concrete incognito tab is skipped. -/
theorem C10_witness :
    tryAssociateTab (fun _ => false) [] c10tab false = ⟨false, .skippedIncognito, []⟩ :=
  C10_incognito_skip (fun _ => false) [] c10tab false rfl

end Sidewise
